import Mathlib

/-!
Verification development for the Rank-ELO-Simulator repository.

Ratings are shallowly embedded as rationals (`ℚ`), league points and ids as
integers, counters as naturals.  Each Python method of `src/players.py`,
`src/ranks.py`, `src/elo_system.py` and `src/simulator.py` becomes a pure
Lean function on an explicit `Player` (or simulator) state.
-/

set_option maxHeartbeats 1000000
set_option linter.unusedVariables false

namespace RankElo

/-- The tier table of ranks.py: tier name together with its minimum rating
threshold, in increasing order, Iron 1000 up to Challenger 2000. -/
def TIERS : List (String × ℚ) :=
  [("Iron", 1000), ("Bronze", 1100), ("Silver", 1200), ("Gold", 1300),
   ("Platinum", 1400), ("Diamond", 1550), ("Master", 1700),
   ("Grandmaster", 1850), ("Challenger", 2000)]

/-- The four division labels of ranks.py, listed as in the source:
index 0 is IV (worst) and index 3 is I (best). -/
def DIVISIONS : List String := ["IV", "III", "II", "I"]

/-- The static tier color table of ranks.py. -/
def TIER_COLORS : List (String × String) :=
  [("Iron", "#6b6b6b"), ("Bronze", "#cd7f32"), ("Silver", "#c0c0c0"),
   ("Gold", "#ffd700"), ("Platinum", "#2ee8c7"), ("Diamond", "#4cc9ff"),
   ("Master", "#a64dff"), ("Grandmaster", "#ff6b6b"), ("Challenger", "#ffb86b")]

/-- Lookup in the color table, with the default used by
TIER_COLORS.get(tier_name, the gray fallback). -/
def tierColorOf (name : String) : String :=
  match TIER_COLORS.find? (fun kv => kv.1 == name) with
  | some kv => kv.2
  | none => ("#cccccc")

/-- The tier descriptor dict returned by rating_to_tier. -/
structure Tier where
  tier : String
  division : String
  color : String
deriving DecidableEq, Repr

/-- The scanning loop of rating_to_tier: walk the tier list keeping the
current (name, min) pair, stopping at the last tier or as soon as the next
tier threshold exceeds the rating. -/
def findTierPair (rating : ℚ) : List (String × ℚ) → (String × ℚ) → (String × ℚ)
  | [], cur => cur
  | t :: rest, _ =>
    match rest with
    | [] => t
    | t2 :: _ => if rating < t2.2 then t else findTierPair rating rest t

/-- rating_to_tier of ranks.py: locate the tier by threshold scan, then split
the tier span into four buckets and pick the division as
DIVISIONS[max 0 (3 - bucket)], attaching the static color. -/
def rating_to_tier (rating : ℚ) : Tier :=
  let tp := findTierPair rating TIERS (("Iron"), 1000)
  let tier_name := tp.1
  let idx0 := TIERS.findIdx (fun t => t.1 == tier_name)
  let idx := if TIERS.length ≤ idx0 then 0 else idx0
  if idx + 1 < TIERS.length then
    let tier_start := (TIERS.getD idx (("Iron"), 1000)).2
    let tier_end := (TIERS.getD (idx + 1) (("Iron"), 1000)).2
    let span := tier_end - tier_start
    if span ≤ 0 then
      { tier := tier_name, division := ("I"), color := tierColorOf tier_name }
    else
      let rel := max 0 (min 1 ((rating - tier_start) / span))
      let division_index := min 3 (Int.toNat ⌊rel * 4⌋)
      { tier := tier_name,
        division := DIVISIONS.getD (max 0 (3 - division_index)) ("I"),
        color := tierColorOf tier_name }
  else
    { tier := tier_name, division := ("I"), color := tierColorOf tier_name }

/-- One entry of a player history list, as appended by record_match. -/
structure HistEntry where
  time : ℚ
  opponent : ℤ
  result : ℚ
  delta : ℚ
deriving DecidableEq, Repr

/-- The Player dataclass of players.py. -/
structure Player where
  id : ℤ
  name : String
  rating : ℚ
  win_streak : ℕ
  last_active : ℚ
  history : List HistEntry
  tier : Tier
  placed : Bool
  placement_games_played : ℕ
  placement_games_required : ℕ
  placement_wins : ℕ
  lp : ℤ
  in_promo : Bool
  promo_games_left : ℕ
  promo_wins : ℕ
  promo_needed : ℕ
  wins : ℕ
  losses : ℕ
deriving DecidableEq, Repr

/-- A Player built with the dataclass defaults of players.py (rating 1500,
all counters zero, tier derived from the default rating); id, name and the
creation time are the explicit inputs. -/
def defaultPlayer (id : ℤ) (name : String) (now : ℚ) : Player :=
  { id := id, name := name, rating := 1500, win_streak := 0, last_active := now,
    history := [], tier := rating_to_tier 1500, placed := false,
    placement_games_played := 0, placement_games_required := 0,
    placement_wins := 0, lp := 0, in_promo := false, promo_games_left := 0,
    promo_wins := 0, promo_needed := 0, wins := 0, losses := 0 }

/-- promote_to_next_division of players.py: within the tier move one step in
the DIVISIONS list toward index 0 and place the rating inside the matching
quarter span plus a 10 point nudge; from division index 0 move to the next
tier at its threshold plus 10; at the very top just add 30 rating. -/
def promoteToNextDivision (p : Player) : Player :=
  let current_tier := p.tier.tier
  let current_div := p.tier.division
  let idx0 := TIERS.findIdx (fun t => t.1 == current_tier)
  let idx := if TIERS.length ≤ idx0 then 0 else idx0
  let di0 := DIVISIONS.findIdx (fun d => d == current_div)
  let div_idx := if DIVISIONS.length ≤ di0 then DIVISIONS.length - 1 else di0
  if 0 < div_idx then
    let new_div := DIVISIONS.getD (div_idx - 1) ("I")
    let tier_min := (TIERS.getD idx (("Iron"), 1000)).2
    let next_min :=
      if idx + 1 < TIERS.length then (TIERS.getD (idx + 1) (("Iron"), 1000)).2
      else tier_min + 300
    let span := next_min - tier_min
    let part := if 0 < span then span / 4 else 1
    let rev := DIVISIONS.findIdx (fun d => d == new_div)
    let new_rating := tier_min + part * ((3 : ℚ) - (rev : ℚ)) + 10
    { p with rating := new_rating,
             tier := { tier := current_tier, division := new_div, color := p.tier.color } }
  else
    if idx + 1 < TIERS.length then
      let t2 := TIERS.getD (idx + 1) (("Iron"), 1000)
      { p with rating := t2.2 + 10,
               tier := { tier := t2.1,
                         division := DIVISIONS.getD (DIVISIONS.length - 1) ("I"),
                         color := p.tier.color } }
    else
      { p with rating := p.rating + 30,
               tier := { tier := current_tier, division := current_div,
                         color := p.tier.color } }

/-- resolve_promo of players.py: success iff promo_wins reached promo_needed;
reset the promo counters; on success promote and zero the lp, on failure
subtract 50 lp (floored at 0) and 10 rating (floored at the minimum rating);
finally recompute the tier from the rating. -/
def resolvePromo (p : Player) : Player :=
  let success := p.promo_needed ≤ p.promo_wins
  let p1 := { p with in_promo := false, promo_games_left := 0,
                     promo_wins := 0, promo_needed := 0 }
  let p2 :=
    if success then
      let p3 := promoteToNextDivision p1
      { p3 with lp := 0 }
    else
      { p1 with lp := max 0 (p1.lp - 50), rating := max 100 (p1.rating - 10) }
  { p2 with tier := rating_to_tier p2.rating }

/-- enter_promo of players.py: set the in_promo flag, the number of games of
the series and the wins needed, floor(best_of / 2) + 1. -/
def enterPromo (p : Player) (best_of : ℕ) : Player :=
  { p with in_promo := true, promo_games_left := best_of, promo_wins := 0,
           promo_needed := best_of / 2 + 1 }

/-- apply_lp of players.py: inside a promo a positive amount counts one promo
win, a game is always consumed, and the series resolves when no game is
left; outside a promo add the amount to lp (floored at 0) and on reaching
100 enter a best-of-3 promo carrying over the excess. -/
def applyLp (p : Player) (amount : ℤ) : Player :=
  if p.in_promo then
    let p1 := if 0 < amount then { p with promo_wins := p.promo_wins + 1 } else p
    let p2 := { p1 with promo_games_left := p1.promo_games_left - 1 }
    if p2.promo_games_left = 0 then resolvePromo p2 else p2
  else
    let lp1 := p.lp + amount
    let lp2 := if lp1 < 0 then 0 else lp1
    if 100 ≤ lp2 then
      let extra := lp2 - 100
      let p1 := enterPromo { p with lp := lp2 } 3
      { p1 with lp := max 0 extra }
    else
      { p with lp := lp2 }

/-- record_match of players.py: stamp last_active, update streak and win or
loss counters from the result, apply the rating delta floored at the minimum
rating, run apply_lp when the lp change is nonzero, run the placement logic,
recompute the tier and append one history entry. -/
def recordMatch (p : Player) (now : ℚ) (opponent_id : ℤ) (result delta : ℚ)
    (lp_change : ℤ) (placement : Bool) : Player :=
  let p0 := { p with last_active := now }
  let p1 :=
    if result = 1 then { p0 with win_streak := p0.win_streak + 1, wins := p0.wins + 1 }
    else
      let pz := { p0 with win_streak := 0 }
      if result = 0 then { pz with losses := pz.losses + 1 } else pz
  let p2 := { p1 with rating := max 100 (p1.rating + delta) }
  let p3 := if lp_change ≠ 0 then applyLp p2 lp_change else p2
  let p4 :=
    if placement && !p3.placed then
      let q1 := { p3 with placement_games_played := p3.placement_games_played + 1 }
      let q2 : Player :=
        if result = 1 then { q1 with placement_wins := q1.placement_wins + 1 } else q1
      if q2.placement_games_required ≤ q2.placement_games_played then
        { q2 with placed := true }
      else q2
    else p3
  let p5 := { p4 with tier := rating_to_tier p4.rating }
  { p5 with history := p5.history ++ [{ time := p5.last_active, opponent := opponent_id,
                                        result := result, delta := delta }] }

/-- apply_decay of players.py: a nonpositive amount is a no-op, otherwise
subtract it from the rating floored at the minimum rating and recompute the
tier. -/
def applyDecay (p : Player) (decay_amount : ℚ) : Player :=
  if decay_amount ≤ 0 then p
  else
    let p1 := { p with rating := max 100 (p.rating - decay_amount) }
    { p1 with tier := rating_to_tier p1.rating }

/-- expected_score of elo_system.py.  The real-valued exponential 10 ** x is
not expressible over ℚ, so it is passed in as an explicit function pow10;
every use below is uniform in that parameter. -/
def expected_score (pow10 : ℚ → ℚ) (rating_a rating_b : ℚ) : ℚ :=
  1 / (1 + pow10 ((rating_b - rating_a) / 400))

/-- elo_delta of elo_system.py: k times (result minus expected), scaled by
(1 + streak_bonus) when the base delta is positive and the bonus nonzero. -/
def elo_delta (pow10 : ℚ → ℚ) (rating_a rating_b result k streak_bonus : ℚ) : ℚ :=
  let exp := expected_score pow10 rating_a rating_b
  let base_delta := k * (result - exp)
  if 0 < base_delta ∧ streak_bonus ≠ 0 then base_delta * (1 + streak_bonus)
  else base_delta

/-- two_player_updates of elo_system.py: delta for A and its negation for B. -/
def two_player_updates (pow10 : ℚ → ℚ)
    (rating_a rating_b result_a k streak_bonus_a streak_bonus_b : ℚ) : ℚ × ℚ :=
  let da := elo_delta pow10 rating_a rating_b result_a k streak_bonus_a
  (da, -da)

/-- The match record dict returned by Simulator.simulate_match. -/
structure MatchRecord where
  time : ℚ
  player_a : ℤ
  player_b : ℤ
  result_a : ℚ
  delta_a : ℚ
  rating_a : ℚ
  rating_b : ℚ
deriving DecidableEq, Repr

/-- The state of the Python random module after seeding.  The generator is
external to the repository; after random.seed(s) every random.random()
value and every random.sample index pick is read off these streams by
position.  The wall clock is not part of this state: random.seed does not
touch time.time(), so the clock is a separate stream below. -/
structure RandEnv where
  rand : ℕ → ℚ
  pairA : ℕ → ℕ
  pairB : ℕ → ℕ

/-- Stream positions consumed so far: random values, sample picks, clock. -/
structure EnvPos where
  rpos : ℕ
  ppos : ℕ
  cpos : ℕ
deriving DecidableEq, Repr

/-- Simulator.pick_matchmaking_pair: nothing on a roster smaller than two,
otherwise two distinct indices obtained from the sample stream. -/
def pickMatchmakingPair (env : RandEnv) (players : List Player) (pos : EnvPos) :
    Option ((ℕ × ℕ) × EnvPos) :=
  let n := players.length
  if n < 2 then none
  else
    let i := env.pairA pos.ppos % n
    let j0 := env.pairB pos.ppos % (n - 1)
    let j := if i ≤ j0 then j0 + 1 else j0
    some ((i, j), { pos with ppos := pos.ppos + 1 })

/-- Simulator.simulate_match of simulator.py on the players at indices i and
j: draw one value, A wins iff it is below the expected score, compute streak
bonuses in arcade mode, apply the paired rating update through record_match
on both sides (each stamping one clock value), write both players back into
the roster and build the match record with one more clock value. -/
def simulateMatch (pow10 : ℚ → ℚ) (k streak_bonus_pct : ℚ) (arcade_mode : Bool)
    (env : RandEnv) (clock : ℕ → ℚ) (players : List Player) (i j : ℕ) (pos : EnvPos) :
    MatchRecord × List Player × EnvPos :=
  let a := players.getD i (defaultPlayer 0 ("") 0)
  let b := players.getD j (defaultPlayer 0 ("") 0)
  let pa := expected_score pow10 a.rating b.rating
  let r := env.rand pos.rpos
  let result_a : ℚ := if r < pa then 1 else 0
  let result_b : ℚ := if r < pa then 0 else 1
  let sb_a := if arcade_mode then streak_bonus_pct * (a.win_streak : ℚ) else 0
  let sb_b := if arcade_mode then streak_bonus_pct * (b.win_streak : ℚ) else 0
  let du := two_player_updates pow10 a.rating b.rating result_a k sb_a sb_b
  let a2 := recordMatch a (clock pos.cpos) b.id result_a du.1 0 false
  let b2 := recordMatch b (clock (pos.cpos + 1)) a.id result_b du.2 0 false
  let players2 := (players.set i a2).set j b2
  ({ time := clock (pos.cpos + 2), player_a := a.id, player_b := b.id,
     result_a := result_a, delta_a := du.1, rating_a := a2.rating,
     rating_b := b2.rating },
   players2,
   { pos with rpos := pos.rpos + 1, cpos := pos.cpos + 3 })

/-- The loop of Simulator.run_batch: up to the requested number of matches,
stop early when the roster has fewer than two players. -/
def runBatchLoop (pow10 : ℚ → ℚ) (k streak_bonus_pct : ℚ) (arcade_mode : Bool)
    (env : RandEnv) (clock : ℕ → ℚ) :
    ℕ → List Player → EnvPos → List MatchRecord → List MatchRecord × List Player
  | 0, players, _, acc => (acc.reverse, players)
  | m + 1, players, pos, acc =>
    match pickMatchmakingPair env players pos with
    | none => (acc.reverse, players)
    | some ((i, j), pos1) =>
      let step := simulateMatch pow10 k streak_bonus_pct arcade_mode env clock players i j pos1
      runBatchLoop pow10 k streak_bonus_pct arcade_mode env clock m step.2.1 step.2.2
        (step.1 :: acc)

/-- Simulator.run_batch of simulator.py with an explicit seed: the seed call
replaces the random generator state by one that is a function of the seed
alone, here seedEnv applied to the seed.  The clock stream is the caller's
wall clock: random.seed does not reset it, so two runs generally read
different clock streams. -/
def runBatch (seedEnv : ℤ → RandEnv) (clock : ℕ → ℚ) (pow10 : ℚ → ℚ)
    (k streak_bonus_pct : ℚ) (arcade_mode : Bool) (nmatches : ℕ) (seed : ℤ)
    (players : List Player) : List MatchRecord × List Player :=
  runBatchLoop pow10 k streak_bonus_pct arcade_mode (seedEnv seed) clock nmatches players
    { rpos := 0, ppos := 0, cpos := 0 } []

/-- The fields of a match record other than its wall-clock timestamp. -/
structure MatchRecordCore where
  player_a : ℤ
  player_b : ℤ
  result_a : ℚ
  delta_a : ℚ
  rating_a : ℚ
  rating_b : ℚ
deriving DecidableEq, Repr

/-- Strip the wall-clock timestamp off a match record. -/
def recordCore (r : MatchRecord) : MatchRecordCore :=
  { player_a := r.player_a, player_b := r.player_b, result_a := r.result_a,
    delta_a := r.delta_a, rating_a := r.rating_a, rating_b := r.rating_b }

/-- Two players that agree on every field except last_active and history:
the second is the first with those two fields replaced. -/
def sameCore (p q : Player) : Prop :=
  ∃ (la : ℚ) (hs : List HistEntry), q = { p with last_active := la, history := hs }

/-- The outcome of reading and decoding the store file, with the file system
and JSON layer abstracted away: the file can be missing, reading or parsing
it can fail with a message, or it decodes to a list of records of which the
malformed ones are the none entries (Player.from_dict raised). -/
inductive LoadInput where
  | missing
  | failure (msg : String)
  | parsed (items : List (Option Player))

/-- load_players of players.py: a missing file yields the empty roster, a
record that fails to decode is skipped while the others are kept, and any
other failure is re-raised as an error wrapping the message. -/
def load_players : LoadInput → Except String (List Player)
  | .missing => .ok []
  | .failure msg => .error ("Failed to load players: " ++ msg)
  | .parsed items => .ok (items.filterMap id)

/-- One mutating operation on a player, for quantifying over arbitrary
sequences of the mutations players.py exposes. -/
inductive Op where
  | rcd (now : ℚ) (opponent_id : ℤ) (result delta : ℚ) (lp_change : ℤ) (placement : Bool)
  | alp (amount : ℤ)
  | rpr
  | prm
  | dec (amount : ℚ)

/-- Interpret one operation. -/
def applyOp (p : Player) : Op → Player
  | .rcd now oid result delta lpc pl => recordMatch p now oid result delta lpc pl
  | .alp amount => applyLp p amount
  | .rpr => resolvePromo p
  | .prm => promoteToNextDivision p
  | .dec amount => applyDecay p amount

/-- Interpret a sequence of operations, first one first. -/
def applyOps (p : Player) (ops : List Op) : Player :=
  ops.foldl applyOp p

/-- Arguments of one record_match call, for sequences of matches. -/
structure MatchArgs where
  now : ℚ
  opponent_id : ℤ
  result : ℚ
  delta : ℚ
  lp_change : ℤ
  placement : Bool

/-- Run a sequence of record_match calls against a player. -/
def runMatches (p : Player) (ms : List MatchArgs) : Player :=
  ms.foldl (fun q m => recordMatch q m.now m.opponent_id m.result m.delta
    m.lp_change m.placement) p

/-! ### Field preservation lemmas

promote_to_next_division touches only rating and tier; resolve_promo
additionally lp and the promo counters; apply_lp those and nothing of the
match or placement bookkeeping.  These projection lemmas drive the
invariant proofs below. -/

@[simp] lemma promote_wins (p : Player) : (promoteToNextDivision p).wins = p.wins := by
  simp only [promoteToNextDivision]
  split_ifs <;> rfl

@[simp] lemma promote_losses (p : Player) : (promoteToNextDivision p).losses = p.losses := by
  simp only [promoteToNextDivision]
  split_ifs <;> rfl

@[simp] lemma promote_streak (p : Player) : (promoteToNextDivision p).win_streak = p.win_streak := by
  simp only [promoteToNextDivision]
  split_ifs <;> rfl

@[simp] lemma promote_lp (p : Player) : (promoteToNextDivision p).lp = p.lp := by
  simp only [promoteToNextDivision]
  split_ifs <;> rfl

@[simp] lemma promote_in_promo (p : Player) : (promoteToNextDivision p).in_promo = p.in_promo := by
  simp only [promoteToNextDivision]
  split_ifs <;> rfl

@[simp] lemma promote_left (p : Player) :
    (promoteToNextDivision p).promo_games_left = p.promo_games_left := by
  simp only [promoteToNextDivision]
  split_ifs <;> rfl

@[simp] lemma promote_promo_wins (p : Player) :
    (promoteToNextDivision p).promo_wins = p.promo_wins := by
  simp only [promoteToNextDivision]
  split_ifs <;> rfl

@[simp] lemma promote_needed (p : Player) :
    (promoteToNextDivision p).promo_needed = p.promo_needed := by
  simp only [promoteToNextDivision]
  split_ifs <;> rfl

@[simp] lemma promote_placed (p : Player) : (promoteToNextDivision p).placed = p.placed := by
  simp only [promoteToNextDivision]
  split_ifs <;> rfl

@[simp] lemma promote_pgp (p : Player) :
    (promoteToNextDivision p).placement_games_played = p.placement_games_played := by
  simp only [promoteToNextDivision]
  split_ifs <;> rfl

@[simp] lemma promote_pgr (p : Player) :
    (promoteToNextDivision p).placement_games_required = p.placement_games_required := by
  simp only [promoteToNextDivision]
  split_ifs <;> rfl

@[simp] lemma promote_pw (p : Player) :
    (promoteToNextDivision p).placement_wins = p.placement_wins := by
  simp only [promoteToNextDivision]
  split_ifs <;> rfl

@[simp] lemma promote_last_active (p : Player) :
    (promoteToNextDivision p).last_active = p.last_active := by
  simp only [promoteToNextDivision]
  split_ifs <;> rfl

@[simp] lemma promote_history (p : Player) :
    (promoteToNextDivision p).history = p.history := by
  simp only [promoteToNextDivision]
  split_ifs <;> rfl

@[simp] lemma enterPromo_wins (p : Player) (b : ℕ) : (enterPromo p b).wins = p.wins := rfl
@[simp] lemma enterPromo_losses (p : Player) (b : ℕ) : (enterPromo p b).losses = p.losses := rfl
@[simp] lemma enterPromo_streak (p : Player) (b : ℕ) :
    (enterPromo p b).win_streak = p.win_streak := rfl
@[simp] lemma enterPromo_rating (p : Player) (b : ℕ) : (enterPromo p b).rating = p.rating := rfl
@[simp] lemma enterPromo_lp (p : Player) (b : ℕ) : (enterPromo p b).lp = p.lp := rfl
@[simp] lemma enterPromo_placed (p : Player) (b : ℕ) : (enterPromo p b).placed = p.placed := rfl
@[simp] lemma enterPromo_pgp (p : Player) (b : ℕ) :
    (enterPromo p b).placement_games_played = p.placement_games_played := rfl
@[simp] lemma enterPromo_pgr (p : Player) (b : ℕ) :
    (enterPromo p b).placement_games_required = p.placement_games_required := rfl
@[simp] lemma enterPromo_pw (p : Player) (b : ℕ) :
    (enterPromo p b).placement_wins = p.placement_wins := rfl
@[simp] lemma enterPromo_last_active (p : Player) (b : ℕ) :
    (enterPromo p b).last_active = p.last_active := rfl
@[simp] lemma enterPromo_history (p : Player) (b : ℕ) :
    (enterPromo p b).history = p.history := rfl
@[simp] lemma enterPromo_in_promo (p : Player) (b : ℕ) :
    (enterPromo p b).in_promo = true := rfl
@[simp] lemma enterPromo_left (p : Player) (b : ℕ) :
    (enterPromo p b).promo_games_left = b := rfl
@[simp] lemma enterPromo_needed (p : Player) (b : ℕ) :
    (enterPromo p b).promo_needed = b / 2 + 1 := rfl
@[simp] lemma enterPromo_promo_wins (p : Player) (b : ℕ) :
    (enterPromo p b).promo_wins = 0 := rfl

@[simp] lemma resolve_wins (p : Player) : (resolvePromo p).wins = p.wins := by
  simp only [resolvePromo]
  split_ifs <;> simp

@[simp] lemma resolve_losses (p : Player) : (resolvePromo p).losses = p.losses := by
  simp only [resolvePromo]
  split_ifs <;> simp

@[simp] lemma resolve_streak (p : Player) : (resolvePromo p).win_streak = p.win_streak := by
  simp only [resolvePromo]
  split_ifs <;> simp

@[simp] lemma resolve_placed (p : Player) : (resolvePromo p).placed = p.placed := by
  simp only [resolvePromo]
  split_ifs <;> simp

@[simp] lemma resolve_pgp (p : Player) :
    (resolvePromo p).placement_games_played = p.placement_games_played := by
  simp only [resolvePromo]
  split_ifs <;> simp

@[simp] lemma resolve_pgr (p : Player) :
    (resolvePromo p).placement_games_required = p.placement_games_required := by
  simp only [resolvePromo]
  split_ifs <;> simp

@[simp] lemma resolve_pw (p : Player) :
    (resolvePromo p).placement_wins = p.placement_wins := by
  simp only [resolvePromo]
  split_ifs <;> simp

@[simp] lemma resolve_last_active (p : Player) :
    (resolvePromo p).last_active = p.last_active := by
  simp only [resolvePromo]
  split_ifs <;> simp

@[simp] lemma resolve_history (p : Player) : (resolvePromo p).history = p.history := by
  simp only [resolvePromo]
  split_ifs <;> simp

@[simp] lemma resolve_in_promo (p : Player) : (resolvePromo p).in_promo = false := by
  simp only [resolvePromo]
  split_ifs <;> simp

@[simp] lemma resolve_left (p : Player) : (resolvePromo p).promo_games_left = 0 := by
  simp only [resolvePromo]
  split_ifs <;> simp

@[simp] lemma resolve_promo_wins (p : Player) : (resolvePromo p).promo_wins = 0 := by
  simp only [resolvePromo]
  split_ifs <;> simp

@[simp] lemma resolve_needed (p : Player) : (resolvePromo p).promo_needed = 0 := by
  simp only [resolvePromo]
  split_ifs <;> simp

lemma applyLp_wins (p : Player) (a : ℤ) : (applyLp p a).wins = p.wins := by
  simp only [applyLp]
  split_ifs <;> simp

lemma applyLp_losses (p : Player) (a : ℤ) : (applyLp p a).losses = p.losses := by
  simp only [applyLp]
  split_ifs <;> simp

lemma applyLp_streak (p : Player) (a : ℤ) : (applyLp p a).win_streak = p.win_streak := by
  simp only [applyLp]
  split_ifs <;> simp

lemma applyLp_placed (p : Player) (a : ℤ) : (applyLp p a).placed = p.placed := by
  simp only [applyLp]
  split_ifs <;> simp

lemma applyLp_pgp (p : Player) (a : ℤ) :
    (applyLp p a).placement_games_played = p.placement_games_played := by
  simp only [applyLp]
  split_ifs <;> simp

lemma applyLp_pgr (p : Player) (a : ℤ) :
    (applyLp p a).placement_games_required = p.placement_games_required := by
  simp only [applyLp]
  split_ifs <;> simp

lemma applyLp_pw (p : Player) (a : ℤ) :
    (applyLp p a).placement_wins = p.placement_wins := by
  simp only [applyLp]
  split_ifs <;> simp

lemma applyLp_last_active (p : Player) (a : ℤ) :
    (applyLp p a).last_active = p.last_active := by
  simp only [applyLp]
  split_ifs <;> simp

lemma applyLp_history (p : Player) (a : ℤ) : (applyLp p a).history = p.history := by
  simp only [applyLp]
  split_ifs <;> simp

/-! ### Claims -/

/-- Claim C5: for every player with in_promo false and every amount with
lp + amount at least 100, apply_lp leaves the player with in_promo true,
promo_games_left 3, promo_needed 2, promo_wins 0 and
lp = max 0 (priorLp + amount - 100). -/
theorem apply_lp_overflow_enters_promo (p : Player) (amount : ℤ)
    (hp : p.in_promo = false) (h : 100 ≤ p.lp + amount) :
    (applyLp p amount).in_promo = true ∧
    (applyLp p amount).promo_games_left = 3 ∧
    (applyLp p amount).promo_needed = 2 ∧
    (applyLp p amount).promo_wins = 0 ∧
    (applyLp p amount).lp = max 0 (p.lp + amount - 100) := by
  have h0 : ¬ (p.lp + amount < 0) := by omega
  simp [applyLp, hp, h0, h, enterPromo]

/-- Witness for C5: the default player at lp 0 receiving 150 LP enters a
best-of-3 promo with 50 LP carried over. -/
theorem apply_lp_overflow_enters_promo_witness :
    (applyLp (defaultPlayer 1 ("A") 0) 150).in_promo = true ∧
    (applyLp (defaultPlayer 1 ("A") 0) 150).promo_games_left = 3 ∧
    (applyLp (defaultPlayer 1 ("A") 0) 150).promo_needed = 2 ∧
    (applyLp (defaultPlayer 1 ("A") 0) 150).promo_wins = 0 ∧
    (applyLp (defaultPlayer 1 ("A") 0) 150).lp =
      max 0 ((defaultPlayer 1 ("A") 0).lp + 150 - 100) :=
  apply_lp_overflow_enters_promo (defaultPlayer 1 ("A") 0) 150 rfl (by decide)

/-- Claim C10: record_match with result one half resets the win streak and
changes neither the wins counter nor the losses counter. -/
theorem record_match_draw_neutral (p : Player) (now : ℚ) (oid : ℤ) (delta : ℚ)
    (lpc : ℤ) (pl : Bool) :
    (recordMatch p now oid (1/2) delta lpc pl).win_streak = 0 ∧
    (recordMatch p now oid (1/2) delta lpc pl).wins = p.wins ∧
    (recordMatch p now oid (1/2) delta lpc pl).losses = p.losses := by
  have h1 : ((1 : ℚ)/2) ≠ 1 := by norm_num
  have h0 : ((1 : ℚ)/2) ≠ 0 := by norm_num
  simp only [recordMatch, if_neg h1, if_neg h0]
  split_ifs <;>
    simp [applyLp_wins, applyLp_losses, applyLp_streak]

/-- Claim C4 counterexample: rating 1000 is not put in the lowest division
IV, and rating 1995 is not classified as Challenger. -/
theorem tier_samples_counterexample :
    (rating_to_tier 1000).division ≠ "IV" ∧
    (rating_to_tier 1995).tier ≠ "Challenger" := by
  constructor <;>
    (norm_num [rating_to_tier, findTierPair, TIERS, DIVISIONS, tierColorOf,
      TIER_COLORS, List.findIdx_cons, List.getD, List.get?, max_def, min_def,
      List.find?] <;> decide)

/-- Claim C4 amended: rating 1000 maps to Iron division I (the code sends
the bottom quarter of a tier to division I), and rating 1995 maps to
Grandmaster division IV, since the Challenger threshold is 2000. -/
theorem tier_samples_eval :
    rating_to_tier 1000 = { tier := "Iron", division := "I", color := "#6b6b6b" } ∧
    rating_to_tier 1995 = { tier := "Grandmaster", division := "IV", color := "#ff6b6b" } := by
  constructor <;>
    (norm_num [rating_to_tier, findTierPair, TIERS, DIVISIONS, tierColorOf,
      TIER_COLORS, List.findIdx_cons, List.getD, List.get?, max_def, min_def,
      List.find?] <;> decide)

/-- Claim C2: within the Iron tier, ratings 1000, 1050 and 1099 land in
divisions I, III and IV respectively, so increasing the rating moves the
player to a worse division (IV is worst, I is best): bucket 0 maps to the
highest division and bucket 3 to the lowest, contradicting the source
comment that a higher rating gives a better division, and the (tier,
division) order decreases as the rating grows inside a tier. -/
theorem division_mapping_inverted :
    (rating_to_tier 1000).tier = "Iron" ∧ (rating_to_tier 1000).division = "I" ∧
    (rating_to_tier 1050).tier = "Iron" ∧ (rating_to_tier 1050).division = "III" ∧
    (rating_to_tier 1099).tier = "Iron" ∧ (rating_to_tier 1099).division = "IV" := by
  refine ⟨?_, ?_, ?_, ?_, ?_, ?_⟩ <;>
    (norm_num [rating_to_tier, findTierPair, TIERS, DIVISIONS, tierColorOf,
      TIER_COLORS, List.findIdx_cons, List.getD, List.get?, max_def, min_def,
      List.find?] <;> decide)

/-- Claim C8: load_players yields the empty roster on a missing store,
keeps exactly the well-formed records when the store parses (dropping each
malformed record and only it), and surfaces every other failure as an
error. -/
theorem load_players_error_handling :
    load_players LoadInput.missing = Except.ok [] ∧
    (∀ items : List (Option Player),
      load_players (LoadInput.parsed items) = Except.ok (items.filterMap id)) ∧
    (∀ pre post : List (Option Player),
      load_players (LoadInput.parsed (pre ++ none :: post)) =
        load_players (LoadInput.parsed (pre ++ post))) ∧
    (∀ ps : List Player, load_players (LoadInput.parsed (ps.map some)) = Except.ok ps) ∧
    (∀ msg : String, load_players (LoadInput.failure msg) =
      Except.error ("Failed to load players: " ++ msg)) := by
  refine ⟨rfl, fun items => rfl, fun pre post => ?_, fun ps => ?_, fun msg => rfl⟩
  · simp [load_players]
  · simp [load_players]

/-- A concrete constant random-module state, used in witnesses. -/
def constEnv : RandEnv :=
  { rand := (fun n => 0), pairA := (fun n => 0), pairB := (fun n => 0) }


/-- The rating produced by promote_to_next_division depends only on the tier
descriptor and the rating of its input. -/
lemma promote_rating_congr (p q : Player) (ht : p.tier = q.tier)
    (hr : p.rating = q.rating) :
    (promoteToNextDivision p).rating = (promoteToNextDivision q).rating := by
  simp only [promoteToNextDivision, ht, hr]
  split_ifs <;> rfl

/-- resolve_promo on a series with enough promo wins: promo cleared, lp
zeroed, rating and tier obtained through promote_to_next_division (stated
against any player q agreeing with the input on tier and rating). -/
lemma resolve_success_via (X q : Player) (hs : X.promo_needed ≤ X.promo_wins)
    (ht : X.tier = q.tier) (hr : X.rating = q.rating) :
    (resolvePromo X).in_promo = false ∧ (resolvePromo X).lp = 0 ∧
    (resolvePromo X).rating = (promoteToNextDivision q).rating ∧
    (resolvePromo X).tier = rating_to_tier (promoteToNextDivision q).rating := by
  have hc : (promoteToNextDivision
      { X with in_promo := false, promo_games_left := 0,
               promo_wins := 0, promo_needed := 0 }).rating =
      (promoteToNextDivision q).rating := promote_rating_congr _ q ht hr
  simp only [resolvePromo]
  rw [if_pos hs]
  refine ⟨by simp, by simp, by simpa using hc, ?_⟩
  simp [hc]

/-- resolve_promo on a failed series: promo cleared, 50 lp and 10 rating
taken away, floored at 0 and at the minimum rating. -/
lemma resolve_failure_state (p : Player) (hf : ¬ p.promo_needed ≤ p.promo_wins) :
    (resolvePromo p).in_promo = false ∧
    (resolvePromo p).lp = max 0 (p.lp - 50) ∧
    (resolvePromo p).rating = max 100 (p.rating - 10) := by
  simp only [resolvePromo]
  rw [if_neg hf]
  exact ⟨by simp, by simp, by simp⟩

/-- Claim C1 amended: a freshly entered best-of-3 series resolves only on
its third apply_lp call.  Two winning calls leave it unresolved with two
promo wins and one game left and change nothing else; the third call then
resolves it as a success whatever its amount: lp becomes 0 and the rating
and tier advance through promote_to_next_division.  Two losing calls
likewise leave it unresolved, and a third losing call resolves it as a
failure: lp loses 50 floored at 0 and the rating loses 10 floored at 100. -/
theorem promo_series_three_calls (p : Player) (h1 : p.in_promo = true)
    (h2 : p.promo_games_left = 3) (h3 : p.promo_needed = 2) (h4 : p.promo_wins = 0) :
    ((applyLp (applyLp p 1) 1).in_promo = true ∧
     (applyLp (applyLp p 1) 1).promo_wins = 2 ∧
     (applyLp (applyLp p 1) 1).promo_games_left = 1 ∧
     (applyLp (applyLp p 1) 1).tier = p.tier ∧
     (applyLp (applyLp p 1) 1).rating = p.rating ∧
     (applyLp (applyLp p 1) 1).lp = p.lp) ∧
    (∀ a : ℤ,
      (applyLp (applyLp (applyLp p 1) 1) a).in_promo = false ∧
      (applyLp (applyLp (applyLp p 1) 1) a).lp = 0 ∧
      (applyLp (applyLp (applyLp p 1) 1) a).rating = (promoteToNextDivision p).rating ∧
      (applyLp (applyLp (applyLp p 1) 1) a).tier =
        rating_to_tier (promoteToNextDivision p).rating) ∧
    ((applyLp (applyLp p 0) 0).in_promo = true ∧
     (applyLp (applyLp p 0) 0).promo_wins = 0 ∧
     (applyLp (applyLp p 0) 0).promo_games_left = 1 ∧
     (applyLp (applyLp p 0) 0).rating = p.rating ∧
     (applyLp (applyLp p 0) 0).lp = p.lp) ∧
    ((applyLp (applyLp (applyLp p 0) 0) 0).in_promo = false ∧
     (applyLp (applyLp (applyLp p 0) 0) 0).lp = max 0 (p.lp - 50) ∧
     (applyLp (applyLp (applyLp p 0) 0) 0).rating = max 100 (p.rating - 10)) := by
  have s1 : applyLp p 1 = { p with promo_wins := 1, promo_games_left := 2 } := by
    simp [applyLp, h1, h2, h4]
  have s2 : applyLp (applyLp p 1) 1 = { p with promo_wins := 2, promo_games_left := 1 } := by
    rw [s1]
    simp [applyLp, h1]
  have t1 : applyLp p 0 = { p with promo_games_left := 2 } := by
    simp [applyLp, h1, h2]
  have t2 : applyLp (applyLp p 0) 0 = { p with promo_games_left := 1 } := by
    rw [t1]
    simp [applyLp, h1]
  refine ⟨by rw [s2]; simp [h1], ?_, by rw [t2]; simp [h1, h4], ?_⟩
  · intro a
    by_cases ha : 0 < a
    · have hred : applyLp { p with promo_wins := 2, promo_games_left := 1 } a =
          resolvePromo { p with promo_wins := 3, promo_games_left := 0 } := by
        simp [applyLp, h1, ha]
      rw [s2, hred]
      exact resolve_success_via _ p (by simp [h3]) rfl rfl
    · have hred : applyLp { p with promo_wins := 2, promo_games_left := 1 } a =
          resolvePromo { p with promo_wins := 2, promo_games_left := 0 } := by
        simp [applyLp, h1, ha]
      rw [s2, hred]
      exact resolve_success_via _ p (by simp [h3]) rfl rfl
  · have hred : applyLp { p with promo_games_left := 1 } 0 =
        resolvePromo { p with promo_games_left := 0 } := by
      simp [applyLp, h1]
    rw [t2, hred]
    exact resolve_failure_state _ (by simp [h3, h4])


/-- Claim C1 counterexample: two winning apply_lp calls do not resolve a
freshly entered best-of-3 series (the code resolves only when
promo_games_left hits 0, after three games), and two losing calls apply no
failure penalty: the series is still running with one game left, the tier
is unchanged and the rating and lp are untouched. -/
theorem promo_two_calls_counterexample :
    (applyLp (applyLp (enterPromo (defaultPlayer 1 ("A") 0) 3) 1) 1).in_promo = true ∧
    (applyLp (applyLp (enterPromo (defaultPlayer 1 ("A") 0) 3) 1) 1).promo_games_left = 1 ∧
    (applyLp (applyLp (enterPromo (defaultPlayer 1 ("A") 0) 3) 1) 1).tier =
      (enterPromo (defaultPlayer 1 ("A") 0) 3).tier ∧
    (applyLp (applyLp (enterPromo (defaultPlayer 1 ("A") 0) 3) 0) 0).in_promo = true ∧
    (applyLp (applyLp (enterPromo (defaultPlayer 1 ("A") 0) 3) 0) 0).rating = 1500 ∧
    (applyLp (applyLp (enterPromo (defaultPlayer 1 ("A") 0) 3) 0) 0).lp = 0 :=
  ⟨rfl, rfl, rfl, rfl, rfl, rfl⟩

/-- Witness for C1: the default player entered into a best-of-3; after two
winning calls the series is still at two promo wins, the third call
resolves it and zeroes the lp; three losing calls also resolve it. -/
theorem promo_series_three_calls_witness :
    (applyLp (applyLp (enterPromo (defaultPlayer 1 ("A") 0) 3) 1) 1).promo_wins = 2 ∧
    (applyLp (applyLp (applyLp (enterPromo (defaultPlayer 1 ("A") 0) 3) 1) 1) 1).in_promo
      = false ∧
    (applyLp (applyLp (applyLp (enterPromo (defaultPlayer 1 ("A") 0) 3) 1) 1) 1).lp = 0 ∧
    (applyLp (applyLp (applyLp (enterPromo (defaultPlayer 1 ("A") 0) 3) 0) 0) 0).in_promo
      = false := by
  have h := promo_series_three_calls (enterPromo (defaultPlayer 1 ("A") 0) 3) rfl rfl rfl rfl
  exact ⟨h.1.2.1, (h.2.1 1).1, (h.2.1 1).2.1, h.2.2.2.1⟩

/-- resolve_promo never produces a negative lp from a nonnegative one. -/
lemma resolve_lp_nonneg (p : Player) (h : 0 ≤ p.lp) : 0 ≤ (resolvePromo p).lp := by
  simp only [resolvePromo]
  split_ifs
  · simp
  · simpa using le_max_left 0 (p.lp - 50)

/-- apply_lp never produces a negative lp from a nonnegative one. -/
lemma applyLp_lp_nonneg (p : Player) (a : ℤ) (h : 0 ≤ p.lp) : 0 ≤ (applyLp p a).lp := by
  simp only [applyLp]
  split_ifs with hi hw hz hz
  any_goals simp_all
  all_goals exact resolve_lp_nonneg _ (by simpa using h)

/-- apply_lp from a non-promo state inside [0, 100): when it does not enter
a promo the lp stays inside [0, 100). -/
lemma applyLp_keeps_bound (p : Player) (a : ℤ) (hp : p.in_promo = false)
    (h0 : 0 ≤ p.lp) (h1 : p.lp < 100)
    (hres : (applyLp p a).in_promo = false) :
    0 ≤ (applyLp p a).lp ∧ (applyLp p a).lp < 100 := by
  revert hres
  simp only [applyLp, hp, Bool.false_eq_true, if_false]
  split_ifs with hneg hov hov
  · intro hres
    simp at hres
  · intro hres
    constructor <;> simp <;> omega
  · intro hres
    simp at hres
  · intro hres
    constructor <;> simp <;> omega

/-- resolve_promo from a promo whose carried lp is below 150 lands back in
a legal non-promo state. -/
lemma resolve_keeps_bound (p : Player) (h0 : 0 ≤ p.lp) (h : p.lp < 150) :
    (resolvePromo p).in_promo = false ∧ 0 ≤ (resolvePromo p).lp ∧
    (resolvePromo p).lp < 100 := by
  simp only [resolvePromo]
  split_ifs
  · refine ⟨by simp, by simp, by simp⟩
  · refine ⟨by simp, by simp [le_max_iff], by simp; omega⟩

/-- apply_decay never touches lp or the promo flag. -/
lemma applyDecay_lp (p : Player) (a : ℚ) :
    (applyDecay p a).lp = p.lp ∧ (applyDecay p a).in_promo = p.in_promo := by
  simp only [applyDecay]
  split_ifs <;> simp

/-- record_match from a non-promo state inside [0, 100): when the player
ends outside a promo the lp is back inside [0, 100). -/
lemma recordMatch_keeps_bound (p : Player) (now : ℚ) (oid : ℤ) (res d : ℚ)
    (lpc : ℤ) (pl : Bool) (hp : p.in_promo = false) (h0 : 0 ≤ p.lp) (h1 : p.lp < 100)
    (hres : (recordMatch p now oid res d lpc pl).in_promo = false) :
    0 ≤ (recordMatch p now oid res d lpc pl).lp ∧
    (recordMatch p now oid res d lpc pl).lp < 100 := by
  revert hres
  simp only [recordMatch]
  split_ifs <;> intro hres <;> simp_all <;>
    first
      | omega
      | (exact applyLp_keeps_bound _ lpc (by simp_all) (by simp_all) (by simp_all)
          (by simp_all))


/-- Claim C3 counterexample: from the default player, a record_match with an
lp_change of 250 enters a promo carrying 150 LP over; three losing
record_match calls then fail the series and leave a reachable state with
in_promo false and lp = 100, outside [0, 100). -/
theorem lp_interval_counterexample :
    (recordMatch (recordMatch (recordMatch (recordMatch (defaultPlayer 1 ("A") 0)
      0 2 0 0 250 false) 0 2 0 0 (-1) false) 0 2 0 0 (-1) false) 0 2 0 0 (-1)
      false).in_promo = false ∧
    (recordMatch (recordMatch (recordMatch (recordMatch (defaultPlayer 1 ("A") 0)
      0 2 0 0 250 false) 0 2 0 0 (-1) false) 0 2 0 0 (-1) false) 0 2 0 0 (-1)
      false).lp = 100 :=
  ⟨rfl, rfl⟩

/-- Claim C3 amended: lp stays nonnegative under every operation, and every
operation applied to a non-promo state with lp in [0, 100) that leaves the
player outside a promo also leaves lp in [0, 100) — except resolve_promo,
which guarantees this only when the lp carried at resolution is below 150:
a promo entered with a carry-over of at least 150 that then fails leaves
in_promo false with lp at or above 100.  apply_decay never touches lp. -/
theorem lp_interval_amended :
    (∀ (p : Player) (a : ℤ), 0 ≤ p.lp → 0 ≤ (applyLp p a).lp) ∧
    (∀ (p : Player) (a : ℤ), p.in_promo = false → 0 ≤ p.lp → p.lp < 100 →
      (applyLp p a).in_promo = false →
      0 ≤ (applyLp p a).lp ∧ (applyLp p a).lp < 100) ∧
    (∀ (p : Player) (now : ℚ) (oid : ℤ) (res d : ℚ) (lpc : ℤ) (pl : Bool),
      p.in_promo = false → 0 ≤ p.lp → p.lp < 100 →
      (recordMatch p now oid res d lpc pl).in_promo = false →
      0 ≤ (recordMatch p now oid res d lpc pl).lp ∧
      (recordMatch p now oid res d lpc pl).lp < 100) ∧
    (∀ p : Player, 0 ≤ p.lp → p.lp < 150 →
      (resolvePromo p).in_promo = false ∧ 0 ≤ (resolvePromo p).lp ∧
      (resolvePromo p).lp < 100) ∧
    (∀ (p : Player) (a : ℚ), (applyDecay p a).lp = p.lp ∧
      (applyDecay p a).in_promo = p.in_promo) :=
  ⟨applyLp_lp_nonneg,
   applyLp_keeps_bound,
   recordMatch_keeps_bound,
   resolve_keeps_bound,
   applyDecay_lp⟩

/-- Witness for C3: gaining 40 LP keeps the default player inside [0, 100),
and a freshly entered promo resolved right away leaves a legal state. -/
theorem lp_interval_amended_witness :
    (0 ≤ (applyLp (defaultPlayer 1 ("A") 0) 40).lp ∧
     (applyLp (defaultPlayer 1 ("A") 0) 40).lp < 100) ∧
    ((resolvePromo (enterPromo (defaultPlayer 2 ("B") 0) 3)).in_promo = false ∧
     0 ≤ (resolvePromo (enterPromo (defaultPlayer 2 ("B") 0) 3)).lp ∧
     (resolvePromo (enterPromo (defaultPlayer 2 ("B") 0) 3)).lp < 100) :=
  ⟨lp_interval_amended.2.1 (defaultPlayer 1 ("A") 0) 40 rfl (by decide) (by decide) rfl,
   lp_interval_amended.2.2.2.1 (enterPromo (defaultPlayer 2 ("B") 0) 3)
     (by decide) (by decide)⟩

/-- Every entry of the tier table has threshold at least 1000 (also the
out-of-range default). -/
lemma tiers_getD_ge (i : ℕ) : 1000 ≤ (TIERS.getD i (("Iron"), 1000)).2 := by
  by_cases h : i < TIERS.length
  · have h9 : i < 9 := by simpa [TIERS] using h
    interval_cases i <;> decide
  · push_neg at h
    rw [List.getD_eq_default TIERS (("Iron"), (1000 : ℚ)) h]

/-- Every entry of the tier table has threshold at most 2000 (also the
out-of-range default). -/
lemma tiers_getD_le (i : ℕ) : (TIERS.getD i (("Iron"), 1000)).2 ≤ 2000 := by
  by_cases h : i < TIERS.length
  · have h9 : i < 9 := by simpa [TIERS] using h
    interval_cases i <;> decide
  · push_neg at h
    rw [List.getD_eq_default TIERS (("Iron"), (1000 : ℚ)) h]
    decide

/-- promote_to_next_division keeps the rating at or above the minimum. -/
lemma promote_rating_ge (p : Player) (h : 100 ≤ p.rating) :
    100 ≤ (promoteToNextDivision p).rating := by
  simp only [promoteToNextDivision]
  set i0 := TIERS.findIdx (fun t => t.1 == p.tier.tier) with hi0
  set idx := if TIERS.length ≤ i0 then 0 else i0 with hidx
  set d0 := DIVISIONS.findIdx (fun d => d == p.tier.division) with hd0
  set dix := if DIVISIONS.length ≤ d0 then DIVISIONS.length - 1 else d0 with hdix
  set nd := DIVISIONS.getD (dix - 1) ("I") with hnd
  set r := DIVISIONS.findIdx (fun d => d == nd) with hr
  have hX := tiers_getD_ge idx
  have hX2 := tiers_getD_ge (idx + 1)
  have hY := tiers_getD_le (idx + 1)
  have hr4 : r ≤ 4 := List.findIdx_le_length _
  have hr0q : (0 : ℚ) ≤ (r : ℚ) := Nat.cast_nonneg r
  have hr4q : (r : ℚ) ≤ 4 := by exact_mod_cast hr4
  split_ifs with hc1 hc2 hc3 hc4 hc5
  · simp only
    nlinarith [mul_nonneg hc3.le (show (0:ℚ) ≤ 4 - (r : ℚ) by linarith)]
  · simp only
    nlinarith []
  · simp only
    nlinarith [mul_nonneg hc4.le (show (0:ℚ) ≤ 4 - (r : ℚ) by linarith)]
  · simp only
    nlinarith []
  · simp only
    linarith [hX2]
  · simp only
    linarith [h]

/-- resolve_promo keeps the rating at or above the minimum. -/
lemma resolve_rating_ge (p : Player) (h : 100 ≤ p.rating) :
    100 ≤ (resolvePromo p).rating := by
  simp only [resolvePromo]
  split_ifs with hs
  · simpa using promote_rating_ge
      { p with in_promo := false, promo_games_left := 0,
               promo_wins := 0, promo_needed := 0 } (by simpa using h)
  · simpa using le_max_left (100 : ℚ) (p.rating - 10)

/-- apply_lp keeps the rating at or above the minimum. -/
lemma applyLp_rating_ge (p : Player) (a : ℤ) (h : 100 ≤ p.rating) :
    100 ≤ (applyLp p a).rating := by
  simp only [applyLp]
  split_ifs <;>
    first
      | exact h
      | exact resolve_rating_ge _ h
      | simpa using h

/-- record_match always leaves the rating at or above the minimum (it is
clamped before the LP handling, which also respects the bound). -/
lemma recordMatch_rating_ge (p : Player) (now : ℚ) (oid : ℤ) (res d : ℚ)
    (lpc : ℤ) (pl : Bool) :
    100 ≤ (recordMatch p now oid res d lpc pl).rating := by
  simp only [recordMatch]
  split_ifs <;>
    first
      | exact le_max_left _ _
      | exact applyLp_rating_ge _ _ (le_max_left _ _)
      | simpa using le_max_left _ _
      | simpa using applyLp_rating_ge _ _ (le_max_left _ _)

/-- apply_decay keeps the rating at or above the minimum. -/
lemma applyDecay_rating_ge (p : Player) (a : ℚ) (h : 100 ≤ p.rating) :
    100 ≤ (applyDecay p a).rating := by
  simp only [applyDecay]
  split_ifs
  · exact h
  · simpa using le_max_left (100 : ℚ) (p.rating - a)

/-- Claim C6: starting at or above the minimum rating 100, no sequence of
mutations (record_match, apply_lp, resolve_promo, promote_to_next_division,
apply_decay) can take the rating below 100. -/
theorem rating_never_below_min (p : Player) (ops : List Op) (h : 100 ≤ p.rating) :
    100 ≤ (applyOps p ops).rating := by
  induction ops generalizing p with
  | nil => simpa [applyOps] using h
  | cons o os ih =>
    have h1 : 100 ≤ (applyOp p o).rating := by
      cases o with
      | rcd now oid res d lpc pl => exact recordMatch_rating_ge p now oid res d lpc pl
      | alp a => exact applyLp_rating_ge p a h
      | rpr => exact resolve_rating_ge p h
      | prm => exact promote_rating_ge p h
      | dec a => exact applyDecay_rating_ge p a h
    have hstep : applyOps p (o :: os) = applyOps (applyOp p o) os := rfl
    rw [hstep]
    exact ih _ h1

/-- Witness for C6: the default player entering and losing part of a promo
series never drops below the minimum rating. -/
theorem rating_never_below_min_witness :
    100 ≤ (applyOps (defaultPlayer 1 ("A") 0) [Op.alp 250, Op.alp (-1)]).rating :=
  rating_never_below_min (defaultPlayer 1 ("A") 0) [Op.alp 250, Op.alp (-1)] (by decide)


/-- Claim C7 counterexample: the default player has
placement_games_required = 0, and its very first placement match pushes
placement_games_played to 1 > 0 = placement_games_required. -/
theorem placement_counters_counterexample :
    (recordMatch (defaultPlayer 1 ("A") 0) 0 2 1 0 0 true).placement_games_played = 1 ∧
    (recordMatch (defaultPlayer 1 ("A") 0) 0 2 1 0 0 true).placement_games_required = 0 ∧
    (recordMatch (defaultPlayer 1 ("A") 0) 0 2 1 0 0 true).placement_wins = 1 :=
  ⟨rfl, rfl, rfl⟩

/-- One record_match call preserves the placement bookkeeping invariant:
wins below games played, games played below max(required, 1), and an
unplaced player is strictly below the requirement or has not played. -/
lemma recordMatch_placement_step (p : Player) (now : ℚ) (oid : ℤ) (res d : ℚ)
    (lpc : ℤ) (pl : Bool)
    (h : p.placement_wins ≤ p.placement_games_played ∧
         p.placement_games_played ≤ max p.placement_games_required 1 ∧
         (p.placed = false → p.placement_games_played < p.placement_games_required ∨
           p.placement_games_played = 0)) :
    (recordMatch p now oid res d lpc pl).placement_wins ≤
      (recordMatch p now oid res d lpc pl).placement_games_played ∧
    (recordMatch p now oid res d lpc pl).placement_games_played ≤
      max (recordMatch p now oid res d lpc pl).placement_games_required 1 ∧
    ((recordMatch p now oid res d lpc pl).placed = false →
      (recordMatch p now oid res d lpc pl).placement_games_played <
        (recordMatch p now oid res d lpc pl).placement_games_required ∨
      (recordMatch p now oid res d lpc pl).placement_games_played = 0) := by
  obtain ⟨hA, hB, hC⟩ := h
  simp only [recordMatch]
  split_ifs <;>
    simp_all [applyLp_pgp, applyLp_pgr, applyLp_pw, applyLp_placed] <;>
    omega

/-- Claim C7 amended: in every state reachable from the default player via
record_match calls, placement_wins ≤ placement_games_played ≤
max(placement_games_required, 1).  The bound placement_games_played ≤
placement_games_required itself fails, because the default
placement_games_required is 0 while the first placement match still raises
placement_games_played to 1. -/
theorem placement_counters_amended (id : ℤ) (nm : String) (now : ℚ)
    (ms : List MatchArgs) :
    (runMatches (defaultPlayer id nm now) ms).placement_wins ≤
      (runMatches (defaultPlayer id nm now) ms).placement_games_played ∧
    (runMatches (defaultPlayer id nm now) ms).placement_games_played ≤
      max (runMatches (defaultPlayer id nm now) ms).placement_games_required 1 := by
  have key : ∀ (l : List MatchArgs) (q : Player),
      (q.placement_wins ≤ q.placement_games_played ∧
       q.placement_games_played ≤ max q.placement_games_required 1 ∧
       (q.placed = false → q.placement_games_played < q.placement_games_required ∨
         q.placement_games_played = 0)) →
      ((runMatches q l).placement_wins ≤ (runMatches q l).placement_games_played ∧
       (runMatches q l).placement_games_played ≤
         max (runMatches q l).placement_games_required 1 ∧
       ((runMatches q l).placed = false →
         (runMatches q l).placement_games_played <
           (runMatches q l).placement_games_required ∨
         (runMatches q l).placement_games_played = 0)) := by
    intro l
    induction l with
    | nil => intro q hq; simpa [runMatches] using hq
    | cons m rest ih =>
      intro q hq
      have h1 := recordMatch_placement_step q m.now m.opponent_id m.result m.delta
        m.lp_change m.placement hq
      have hstep : runMatches q (m :: rest) =
          runMatches (recordMatch q m.now m.opponent_id m.result m.delta
            m.lp_change m.placement) rest := rfl
      rw [hstep]
      exact ih _ h1
  have h0 : (defaultPlayer id nm now).placement_wins ≤
      (defaultPlayer id nm now).placement_games_played ∧
      (defaultPlayer id nm now).placement_games_played ≤
        max (defaultPlayer id nm now).placement_games_required 1 ∧
      ((defaultPlayer id nm now).placed = false →
        (defaultPlayer id nm now).placement_games_played <
          (defaultPlayer id nm now).placement_games_required ∨
        (defaultPlayer id nm now).placement_games_played = 0) := by
    exact ⟨le_refl 0, Nat.zero_le _, fun hp => Or.inr rfl⟩
  exact ⟨(key ms _ h0).1, (key ms _ h0).2.1⟩


/-- apply_lp never reads last_active or history: running it on a player
with those two fields replaced is the same as replacing them afterwards. -/
lemma applyLp_canon (i : ℤ) (nm : String) (rt : ℚ) (ws : ℕ) (la : ℚ)
    (hs : List HistEntry) (ti : Tier) (pb : Bool) (g1 g2 g3 : ℕ) (lp : ℤ)
    (ip : Bool) (pgl pw pn wi lo : ℕ) (a : ℤ) :
    applyLp ⟨i, nm, rt, ws, la, hs, ti, pb, g1, g2, g3, lp, ip, pgl, pw, pn, wi, lo⟩ a =
      { applyLp ⟨i, nm, rt, ws, 0, [], ti, pb, g1, g2, g3, lp, ip, pgl, pw, pn, wi, lo⟩ a with
        last_active := la, history := hs } := by
  by_cases hip : ip = true
  · by_cases ha : 0 < a <;>
      (simp only [applyLp, resolvePromo, promoteToNextDivision, enterPromo, hip, ha,
        if_true, if_false, eq_self_iff_true, not_true, not_false_iff]
       split_ifs <;> rfl)
  · simp only [applyLp, enterPromo, hip, if_true, if_false, Bool.false_eq_true,
      eq_self_iff_true, not_true, not_false_iff]
    split_ifs <;> rfl


/-- record_match reads last_active and history only to overwrite the first
with now and to append one entry to the second: running it on a player with
those two fields replaced equals running it from canonical values 0 and []
and then replacing them (the now and opponent arguments enter only the two
replaced fields). -/
lemma recordMatch_canon (i : ℤ) (nm : String) (rt : ℚ) (ws : ℕ) (la : ℚ)
    (hs : List HistEntry) (ti : Tier) (pb : Bool) (g1 g2 g3 : ℕ) (lp : ℤ)
    (ip : Bool) (pgl pw pn wi lo : ℕ) (now : ℚ) (oid : ℤ) (res d : ℚ)
    (lpc : ℤ) (pl : Bool) :
    recordMatch ⟨i, nm, rt, ws, la, hs, ti, pb, g1, g2, g3, lp, ip, pgl, pw, pn, wi, lo⟩
        now oid res d lpc pl =
      { recordMatch ⟨i, nm, rt, ws, 0, [], ti, pb, g1, g2, g3, lp, ip, pgl, pw, pn, wi, lo⟩
          0 0 res d lpc pl with
        last_active := now,
        history := hs ++ [{ time := now, opponent := oid, result := res, delta := d }] } := by
  by_cases h1 : res = (1 : ℚ)
  · by_cases hl : lpc = 0
    · simp only [recordMatch, h1, hl, if_true, if_false, eq_self_iff_true, not_true,
        not_false_iff, ne_eq, one_ne_zero]
      split_ifs <;> rfl
    · simp only [recordMatch, h1, if_true, if_false, eq_self_iff_true, not_true,
        not_false_iff, ne_eq, hl, one_ne_zero]
      conv_lhs => rw [applyLp_canon]
      split_ifs <;> rfl
  · by_cases h0 : res = (0 : ℚ) <;> by_cases hl : lpc = 0
    · simp only [recordMatch, h1, h0, hl, if_true, if_false, eq_self_iff_true, not_true,
        not_false_iff, ne_eq]
      split_ifs <;> rfl
    · simp only [recordMatch, h1, h0, if_true, if_false, eq_self_iff_true, not_true,
        not_false_iff, ne_eq, hl]
      conv_lhs => rw [applyLp_canon]
      split_ifs <;> rfl
    · simp only [recordMatch, h1, h0, hl, if_true, if_false, eq_self_iff_true, not_true,
        not_false_iff, ne_eq]
      split_ifs <;> rfl
    · simp only [recordMatch, h1, h0, if_true, if_false, eq_self_iff_true, not_true,
        not_false_iff, ne_eq, hl]
      conv_lhs => rw [applyLp_canon]
      split_ifs <;> rfl


/-- sameCore is reflexive. -/
lemma sameCore_refl (p : Player) : sameCore p p :=
  ⟨p.last_active, p.history, rfl⟩

/-- Players with the same core have the same rating. -/
lemma sameCore_rating (p q : Player) (h : sameCore p q) : q.rating = p.rating := by
  obtain ⟨la, hs, rfl⟩ := h
  rfl

/-- record_match sends players with the same core to players with the same
core, whatever timestamps and opponent ids the two calls use. -/
lemma recordMatch_sameCore (p q : Player) (h : sameCore p q) (t u : ℚ)
    (o1 o2 : ℤ) (res d : ℚ) (lpc : ℤ) (pl : Bool) :
    sameCore (recordMatch p t o1 res d lpc pl) (recordMatch q u o2 res d lpc pl) := by
  obtain ⟨la, hs, rfl⟩ := h
  cases p with
  | mk i nm rt ws la0 hs0 ti pb g1 g2 g3 lp ip pgl pw pn wi lo =>
    refine ⟨u, hs ++ [{ time := u, opponent := o2, result := res, delta := d }], ?_⟩
    dsimp only
    conv_lhs => rw [recordMatch_canon]
    conv_rhs => rw [recordMatch_canon]

/-- Rosters that agree pointwise up to last_active and history stay so
under getD. -/
lemma forall₂_sameCore_getD {ps qs : List Player}
    (h : List.Forall₂ sameCore ps qs) (i : ℕ) (dp : Player) :
    sameCore (ps.getD i dp) (qs.getD i dp) := by
  induction h generalizing i with
  | nil => exact sameCore_refl dp
  | cons hpq htail ih =>
    cases i with
    | zero => simpa [List.getD] using hpq
    | succ n => simpa [List.getD] using ih n

/-- Rosters that agree pointwise up to last_active and history stay so
under set, when the written players also agree. -/
lemma forall₂_sameCore_set {ps qs : List Player}
    (h : List.Forall₂ sameCore ps qs) (i : ℕ) (a b : Player)
    (hab : sameCore a b) : List.Forall₂ sameCore (ps.set i a) (qs.set i b) := by
  induction h generalizing i with
  | nil => simp
  | cons hpq htail ih =>
    cases i with
    | zero => simpa [List.set] using List.Forall₂.cons hab htail
    | succ n => simpa [List.set] using List.Forall₂.cons hpq (ih n)

/-- Every roster has the same cores as itself. -/
lemma forall₂_sameCore_refl (ps : List Player) : List.Forall₂ sameCore ps ps := by
  induction ps with
  | nil => exact List.Forall₂.nil
  | cons p rest ih => exact List.Forall₂.cons (sameCore_refl p) ih


/-- simulate_match depends on the clock only through the time stamps it
writes: two calls with the same random state but different clocks, on
rosters agreeing up to last_active and history, produce records that agree
except for the time field, rosters that again agree up to last_active and
history, and the same stream positions. -/
lemma simulateMatch_congr (pow10 : ℚ → ℚ) (k sb : ℚ) (arc : Bool) (env : RandEnv)
    (c1 c2 : ℕ → ℚ) (ps qs : List Player) (i j : ℕ) (pos : EnvPos)
    (h : List.Forall₂ sameCore ps qs) :
    recordCore (simulateMatch pow10 k sb arc env c1 ps i j pos).1 =
      recordCore (simulateMatch pow10 k sb arc env c2 qs i j pos).1 ∧
    List.Forall₂ sameCore (simulateMatch pow10 k sb arc env c1 ps i j pos).2.1
      (simulateMatch pow10 k sb arc env c2 qs i j pos).2.1 ∧
    (simulateMatch pow10 k sb arc env c1 ps i j pos).2.2 =
      (simulateMatch pow10 k sb arc env c2 qs i j pos).2.2 := by
  obtain ⟨laA, hsA, hqa⟩ := forall₂_sameCore_getD h i (defaultPlayer 0 ("") 0)
  obtain ⟨laB, hsB, hqb⟩ := forall₂_sameCore_getD h j (defaultPlayer 0 ("") 0)
  simp only [simulateMatch]
  rw [hqa, hqb]
  dsimp only
  set dp := defaultPlayer 0 ("") 0 with hdp
  set a := ps.getD i dp with hadef
  set b := ps.getD j dp with hbdef
  set r := env.rand pos.rpos with hrdef
  set pa := expected_score pow10 a.rating b.rating with hpadef
  set resA : ℚ := if r < pa then 1 else 0 with hresA
  set resB : ℚ := if r < pa then 0 else 1 with hresB
  set sbA := if arc then sb * (a.win_streak : ℚ) else 0 with hsbA
  set sbB := if arc then sb * (b.win_streak : ℚ) else 0 with hsbB
  set du := two_player_updates pow10 a.rating b.rating resA k sbA sbB with hdu
  have e1 : sameCore (recordMatch a (c1 pos.cpos) b.id resA du.1 0 false)
      (recordMatch { a with last_active := laA, history := hsA } (c2 pos.cpos)
        b.id resA du.1 0 false) :=
    recordMatch_sameCore _ _ ⟨laA, hsA, rfl⟩ _ _ _ _ _ _ _ _
  have e2 : sameCore (recordMatch b (c1 (pos.cpos + 1)) a.id resB du.2 0 false)
      (recordMatch { b with last_active := laB, history := hsB } (c2 (pos.cpos + 1))
        a.id resB du.2 0 false) :=
    recordMatch_sameCore _ _ ⟨laB, hsB, rfl⟩ _ _ _ _ _ _ _ _
  refine ⟨?_, ?_, ?_⟩
  · rw [recordCore, recordCore, sameCore_rating _ _ e1, sameCore_rating _ _ e2]
  · exact forall₂_sameCore_set (forall₂_sameCore_set h i _ _ e1) j _ _ e2
  · exact trivial


/-- The run_batch loop depends on the clock only through the time stamps in
its records: same random state, different clocks, rosters agreeing up to
last_active and history, accumulators agreeing up to time stamps — then the
produced record sequences agree up to time stamps. -/
lemma runBatchLoop_congr (pow10 : ℚ → ℚ) (k sb : ℚ) (arc : Bool) (env : RandEnv)
    (c1 c2 : ℕ → ℚ) :
    ∀ (m : ℕ) (ps qs : List Player) (pos : EnvPos) (acc1 acc2 : List MatchRecord),
      List.Forall₂ sameCore ps qs →
      acc1.map recordCore = acc2.map recordCore →
      (runBatchLoop pow10 k sb arc env c1 m ps pos acc1).1.map recordCore =
        (runBatchLoop pow10 k sb arc env c2 m qs pos acc2).1.map recordCore := by
  intro m
  induction m with
  | zero =>
    intro ps qs pos acc1 acc2 h hacc
    simp only [runBatchLoop, List.map_reverse, hacc]
  | succ m ih =>
    intro ps qs pos acc1 acc2 h hacc
    have hlen : ps.length = qs.length := h.length_eq
    simp only [runBatchLoop]
    have hpick : pickMatchmakingPair env qs pos = pickMatchmakingPair env ps pos := by
      simp only [pickMatchmakingPair, ← hlen]
    rw [hpick]
    cases hp : pickMatchmakingPair env ps pos with
    | none => simp only [List.map_reverse, hacc]
    | some pr =>
      obtain ⟨⟨i, j⟩, pos1⟩ := pr
      dsimp only
      have hsim := simulateMatch_congr pow10 k sb arc env c1 c2 ps qs i j pos1 h
      rw [← hsim.2.2]
      exact ih _ _ _ _ _ hsim.2.1 (by simp only [List.map_cons, hsim.1, hacc])

/-- The accumulator of the run_batch loop only prefixes the result. -/
lemma runBatchLoop_acc (pow10 : ℚ → ℚ) (k sb : ℚ) (arc : Bool) (env : RandEnv)
    (c : ℕ → ℚ) :
    ∀ (m : ℕ) (ps : List Player) (pos : EnvPos) (acc : List MatchRecord),
      (runBatchLoop pow10 k sb arc env c m ps pos acc).1 =
        acc.reverse ++ (runBatchLoop pow10 k sb arc env c m ps pos []).1 := by
  intro m
  induction m with
  | zero => intro ps pos acc; simp [runBatchLoop]
  | succ m ih =>
    intro ps pos acc
    simp only [runBatchLoop]
    cases hp : pickMatchmakingPair env ps pos with
    | none => simp
    | some pr =>
      obtain ⟨⟨i, j⟩, pos1⟩ := pr
      dsimp only
      rw [ih _ _ (_ :: acc), ih _ _ (_ :: [])]
      simp

/-- On a roster of at least two players, the first record produced by a
seeded run carries the third clock value (two stamps go into the two
record_match calls first). -/
lemma runBatch_first_time (seedEnv : ℤ → RandEnv) (clock : ℕ → ℚ) (pow10 : ℚ → ℚ)
    (k sb : ℚ) (arc : Bool) (m : ℕ) (seed : ℤ) (ps : List Player)
    (h2 : 2 ≤ ps.length) :
    ((runBatch seedEnv clock pow10 k sb arc (m + 1) seed ps).1.getD 0
      { time := 0, player_a := 0, player_b := 0, result_a := 0, delta_a := 0,
        rating_a := 0, rating_b := 0 }).time = clock 2 := by
  have hnot : ¬ ps.length < 2 := Nat.not_lt.mpr h2
  simp only [runBatch, runBatchLoop, pickMatchmakingPair, hnot, if_false, ite_false]
  rw [runBatchLoop_acc]
  simp [simulateMatch]


/-- Claim C9 counterexample: two run_batch(100, seed 42) runs on the same
two-player roster with the same seeded random state but the wall clock at
different points (random.seed does not reset the clock) produce different
record sequences: the first record carries the clock value read during the
run, 2 in one run and 1002 in the other. -/
theorem run_batch_clock_counterexample :
    (runBatch (fun s => constEnv) (fun n => (n : ℚ)) (fun x => 1) 32 0 false 100 42
        [defaultPlayer 1 ("A") 0, defaultPlayer 2 ("B") 0]).1 ≠
      (runBatch (fun s => constEnv) (fun n => (n : ℚ) + 1000) (fun x => 1) 32 0 false 100 42
        [defaultPlayer 1 ("A") 0, defaultPlayer 2 ("B") 0]).1 := by
  intro hEq
  have h1 := runBatch_first_time (fun s => constEnv) (fun n => (n : ℚ)) (fun x => 1)
    32 0 false 99 42 [defaultPlayer 1 ("A") 0, defaultPlayer 2 ("B") 0] (by simp)
  have h2 := runBatch_first_time (fun s => constEnv) (fun n => (n : ℚ) + 1000) (fun x => 1)
    32 0 false 99 42 [defaultPlayer 1 ("A") 0, defaultPlayer 2 ("B") 0] (by simp)
  rw [show (99 : ℕ) + 1 = 100 from rfl] at h1 h2
  rw [hEq] at h1
  rw [h1] at h2
  norm_num at h2

/-- Claim C9 amended: two run_batch(100, seed 42) runs on equal initial
rosters read the same seeded random state, so they agree record for record
on every field except the wall-clock time stamp — same length, same player
ids, result, delta and both ratings; when the two runs also read the same
clock stream the sequences are fully identical.  The literal sequences
differ in general because each record embeds a fresh time.time() value,
which random.seed(42) does not reset. -/
theorem run_batch_seed_reproducible (seedEnv : ℤ → RandEnv) (c1 c2 : ℕ → ℚ)
    (pow10 : ℚ → ℚ) (k sb : ℚ) (arc : Bool) (roster1 roster2 : List Player)
    (h : roster1 = roster2) :
    (runBatch seedEnv c1 pow10 k sb arc 100 42 roster1).1.map recordCore =
      (runBatch seedEnv c2 pow10 k sb arc 100 42 roster2).1.map recordCore ∧
    (c1 = c2 → (runBatch seedEnv c1 pow10 k sb arc 100 42 roster1).1 =
      (runBatch seedEnv c2 pow10 k sb arc 100 42 roster2).1) := by
  subst h
  constructor
  · exact runBatchLoop_congr pow10 k sb arc (seedEnv 42) c1 c2 100 roster1 roster1
      { rpos := 0, ppos := 0, cpos := 0 } [] [] (forall₂_sameCore_refl roster1) rfl
  · intro hc
    rw [hc]

/-- Witness for C9 at a concrete seeded state, two clock streams offset
from one another and a two-player roster. -/
theorem run_batch_seed_reproducible_witness :
    (runBatch (fun s => constEnv) (fun n => (n : ℚ)) (fun x => 1) 32 0 false 100 42
        [defaultPlayer 1 ("A") 0, defaultPlayer 2 ("B") 0]).1.map recordCore =
      (runBatch (fun s => constEnv) (fun n => (n : ℚ) + 5) (fun x => 1) 32 0 false 100 42
        [defaultPlayer 1 ("A") 0, defaultPlayer 2 ("B") 0]).1.map recordCore :=
  (run_batch_seed_reproducible (fun s => constEnv) (fun n => (n : ℚ))
    (fun n => (n : ℚ) + 5) (fun x => 1) 32 0 false
    [defaultPlayer 1 ("A") 0, defaultPlayer 2 ("B") 0]
    [defaultPlayer 1 ("A") 0, defaultPlayer 2 ("B") 0] rfl).1

end RankElo
